import Mathlib

/-!
Shallow embedding of the screen-recorder session controller
(`src/src/App.jsx` of Ambika2504/screen-recorder) and proofs of the
spec's claims about it.

Modelling conventions:
* A binary chunk (JS `Blob`) is its byte content, `List Nat`; its `size`
  is the list length.
* A `ref` holding a possibly-`null` handle is an `Option`.
* Media streams are abstracted to the list of track identifiers they
  carry (cleanup only ever iterates the tracks and stops each one).
* JS string truthiness on the selected MIME type (`mimeType ? … : …`,
  `mimeType || "video/webm"`) is the test `mt = ""`.
* External host callbacks (`ondataavailable`, `onstop`, timer ticks) are
  modelled as explicit events applied to the state.
-/

namespace ScreenRecorder

/-- `MAX_DURATION_MS = 3 * 60 * 1000` from `App.jsx`. -/
def MAX_DURATION_MS : Nat := 3 * 60 * 1000

/-- The 250 ms interval passed to `window.setInterval` in `startTimer`. -/
def TICK_MS : Nat := 250

/-- A JS `Blob` abstracted to its byte content; `size` is the length. -/
abbrev Blob := List Nat

/-- The built artifact of `new Blob(chunks, { type })`: concatenated
content plus the declared content type. -/
structure Artifact where
  content : List Nat
  ctype : String
deriving DecidableEq, Repr

/-- The component's state: the `useState` values and the `useRef` cells
of `ScreenRecorderApp`. Streams are lists of track ids; `none` is a
`null` ref. `previewURL` abstracts the object URL to the artifact it
references (`none` is the empty-string URL). -/
structure AppState where
  isSupported : Bool
  isRecording : Bool
  elapsedMs : Nat
  previewURL : Option Artifact
  error : String
  mediaRecorder : Option Bool
  chunks : List Blob
  displayStream : Option (List Nat)
  micStream : Option (List Nat)
  mixedStream : Option (List Nat)
  audioCtx : Option Nat
  tick : Bool
  startTime : Nat
deriving DecidableEq, Repr

/-! ## Encoder format selection (`pickMimeType`) -/

/-- The candidate list `cand` of `pickMimeType`, in source order. -/
def cand : List String :=
  ["video/webm;codecs=vp9,opus", "video/webm;codecs=vp8,opus", "video/webm"]

/-- `pickMimeType`: first candidate the host reports supported, else the
empty string (`cand.find(...) || ""`). `isTypeSupported` stands for the
host's `MediaRecorder.isTypeSupported`. -/
def pickMimeType (isTypeSupported : String → Bool) : String :=
  (cand.find? isTypeSupported).getD ""

/-- The options argument of `new MediaRecorder(combined, mimeType ? { mimeType } : undefined)`:
`none` models `undefined` (no format option passed). -/
def recorderOptions (mt : String) : Option String :=
  if mt = "" then none else some mt

/-- The blob content type `mimeType || "video/webm"` used in `onstop`
and in `handleDownload`. -/
def blobType (mt : String) : String :=
  if mt = "" then "video/webm" else mt

/-! ## Segment buffering (`recorder.ondataavailable`) -/

/-- One `ondataavailable` callback: `if (e.data && e.data.size > 0) chunks.push(e.data)`.
`e.data` may be `null` (`none`). -/
def dataAvailable (chunks : List Blob) (dat : Option Blob) : List Blob :=
  match dat with
  | some b => if 0 < b.length then chunks ++ [b] else chunks
  | none => chunks

/-- The chunk buffer after a sequence of `ondataavailable` events has
been delivered in arrival order. -/
def processDataEvents (chunks : List Blob) (evs : List (Option Blob)) : List Blob :=
  evs.foldl dataAvailable chunks

/-! ## Cleanup (`cleanupStreams`) -/

/-- `s?.getTracks?.()`: the tracks of a possibly-`null` stream ref. -/
def optTracks : Option (List Nat) → List Nat
  | none => []
  | some ts => ts

/-- `cleanupStreams`. Stops every track of the three stream refs
(null-safe `?.`), nulls the three refs, then, if the audio context ref
is set, closes it inside `try { … } catch {}` and nulls it. The
`closeFails` flag is the outcome of `audioCtx.close()`; the surrounding
`catch {}` swallows it, so the resulting state does not depend on it.
Returns the new state paired with the ids of every track that was
stopped. -/
def cleanupStreams (closeFails : Bool) (s : AppState) : AppState × List Nat :=
  let stopped :=
    optTracks s.displayStream ++ optTracks s.micStream ++ optTracks s.mixedStream
  let s1 := { s with displayStream := none, micStream := none, mixedStream := none }
  let s2 :=
    match s1.audioCtx with
    | some _ =>
        -- `try { audioCtxRef.current.close(); } catch {}` — a close
        -- failure (closeFails = true) is swallowed and the ref is
        -- nulled either way, because the assignment follows the
        -- try/catch block.
        if closeFails then { s1 with audioCtx := none } else { s1 with audioCtx := none }
    | none => s1
  (s2, stopped)

/-! ## Start guard (`startRecording`, synchronous prefix) -/

/-- Outcome of the synchronous prefix of `startRecording`: either the
call returned at the guard (`blocked`) or it passed the guard and
proceeds to acquisition (`proceed`). -/
inductive StartOutcome
  | blocked (s : AppState)
  | proceed (s : AppState)
deriving DecidableEq, Repr

/-- The component state carried by either outcome. -/
def StartOutcome.state : StartOutcome → AppState
  | .blocked s => s
  | .proceed s => s

/-- Whether the start call returned at the guard. -/
def StartOutcome.isBlocked : StartOutcome → Bool
  | .blocked _ => true
  | .proceed _ => false

/-- The synchronous prefix of `startRecording`: `setError("")` runs
first; then `if (!isSupported || isRecording) return;`; then any stale
preview URL is revoked (`setPreviewURL("")`) before acquisition. -/
def startRecordingStep (s : AppState) : StartOutcome :=
  let s1 := { s with error := "" }
  if !s1.isSupported || s1.isRecording then .blocked s1
  else if s1.previewURL.isSome then .proceed { s1 with previewURL := none }
  else .proceed s1

/-! ## Success-path ordering (`startRecording`, try block) -/

/-- The observable actions of the success path of `startRecording`, one
constructor per statement of the `try` block. -/
inductive StartAction
  | acquireDisplay
  | acquireMic
  | createAudioCtx
  | createSystemSource
  | createMicSource
  | createDest
  | connectSystemToDest
  | connectMicToDest
  | buildCombinedStream
  | selectMimeType
  | createRecorder
  | resetChunks
  | setOndataavailable
  | setOnstop
  | addVideoEndedListener
  | storeRefs
  | recorderStart
  | setIsRecordingTrue
  | beginTimer
deriving DecidableEq, Repr

/-- The success path of `startRecording` as the sequence of its actions,
in source order. -/
def startSuccessTrace : List StartAction :=
  [.acquireDisplay, .acquireMic, .createAudioCtx, .createSystemSource,
   .createMicSource, .createDest, .connectSystemToDest, .connectMicToDest,
   .buildCombinedStream, .selectMimeType, .createRecorder, .resetChunks,
   .setOndataavailable, .setOnstop, .addVideoEndedListener, .storeRefs,
   .recorderStart, .setIsRecordingTrue, .beginTimer]

/-! ## Stop triggers and the encoder stop callback
(`stopRecording` / `recorder.onstop`) -/

/-- The `MediaRecorder.state` values the controller distinguishes. -/
inductive RecState
  | recording
  | inactive
deriving DecidableEq, Repr

/-- The per-attempt stop/cleanup machine: the encoder state, whether the
host has a pending (not yet delivered) `onstop` callback, whether the
tick interval is live, and how many times cleanup ran and an artifact
was built. -/
structure StopMachine where
  recState : RecState
  onstopPending : Bool
  timerActive : Bool
  cleanupCount : Nat
  artifactCount : Nat
deriving DecidableEq, Repr

/-- The machine at the moment an attempt reaches the Recording state:
encoder recording, timer ticking, nothing pending, nothing cleaned. -/
def recordingInit : StopMachine :=
  { recState := .recording, onstopPending := false, timerActive := true,
    cleanupCount := 0, artifactCount := 0 }

/-- `stopRecording`: if the encoder is not already `inactive`, call
`recorder.stop()` — the encoder becomes `inactive` and the host queues
its `onstop` callback (the host fires it at most once). Then
`stopTimer()` always runs. -/
def stopRecordingM (s : StopMachine) : StopMachine :=
  let s1 :=
    if s.recState = RecState.inactive then s
    else { s with recState := .inactive, onstopPending := true }
  { s1 with timerActive := false }

/-- Delivery of the encoder's `onstop` callback: if one is pending, the
handler runs — `stopTimer()`, build the artifact, set the preview,
`setIsRecording(false)`, `cleanupStreams()` — consuming the pending
callback; otherwise nothing happens. -/
def deliverOnstopM (s : StopMachine) : StopMachine :=
  if s.onstopPending then
    { s with onstopPending := false, timerActive := false,
             cleanupCount := s.cleanupCount + 1,
             artifactCount := s.artifactCount + 1 }
  else s

/-- The events that can reach the stop machine: the three stop triggers
(user button, screen-share track `ended`, timer timeout) all invoke the
same `stopRecording`, plus host delivery of the queued `onstop`. -/
inductive StopEvent
  | userStop
  | trackEnded
  | timerTimeout
  | deliverOnstop
deriving DecidableEq, Repr

/-- Whether an event is one of the three stop triggers. -/
def StopEvent.isStopTrigger : StopEvent → Bool
  | .userStop => true
  | .trackEnded => true
  | .timerTimeout => true
  | .deliverOnstop => false

/-- One event step of the stop machine. -/
def stepStop (s : StopMachine) : StopEvent → StopMachine
  | .userStop => stopRecordingM s
  | .trackEnded => stopRecordingM s
  | .timerTimeout => stopRecordingM s
  | .deliverOnstop => deliverOnstopM s

/-- Run a sequence of stop events in order. -/
def runStop (s : StopMachine) (es : List StopEvent) : StopMachine :=
  es.foldl stepStop s

/-- Eventual delivery of a still-queued `onstop` callback after the
event sequence (the host always delivers a queued callback). -/
def flushOnstop (s : StopMachine) : StopMachine :=
  deliverOnstopM s

/-! ## Session timer (`startTimer` / `stopTimer`) -/

/-- The timer's state: `startTimeRef`, published `elapsedMs`, whether
the interval is live (`tickRef !== null`), and how many times a tick
has invoked `stopRecording`. -/
structure TimerState where
  startTime : Nat
  elapsedMs : Nat
  tickActive : Bool
  stopCalls : Nat
deriving DecidableEq, Repr

/-- `startTimer()`: record `Date.now()` as the origin, reset
`elapsedMs` to 0, start the interval. -/
def startTimerM (now : Nat) : TimerState :=
  { startTime := now, elapsedMs := 0, tickActive := true, stopCalls := 0 }

/-- One interval callback at wall-clock time `now` (only runs while the
interval is live): recompute `ms = now - startTime`, publish it, and if
`ms >= MAX_DURATION_MS` invoke `stopRecording()`, whose `stopTimer()`
clears the interval. -/
def timerTick (s : TimerState) (now : Nat) : TimerState :=
  if s.tickActive then
    let ms := now - s.startTime
    if MAX_DURATION_MS ≤ ms then
      { s with elapsedMs := ms, stopCalls := s.stopCalls + 1, tickActive := false }
    else
      { s with elapsedMs := ms }
  else s

/-- The timer after `n` interval callbacks, the `k`-th arriving at
`origin + k * TICK_MS` (drift-free 250 ms schedule). -/
def runTimer (origin : Nat) (n : Nat) : TimerState :=
  (List.range n).foldl (fun s k => timerTick s (origin + (k + 1) * TICK_MS))
    (startTimerM origin)

/-! ## Encoder stop handler (`recorder.onstop`) on the app state -/

/-- `recorder.onstop` with the selected format `mt` closed over:
`stopTimer()`, build `new Blob(chunks, { type: mt || "video/webm" })`,
publish its object URL as the preview, `setIsRecording(false)`, then
`cleanupStreams()` (whose close outcome is `closeFails`). -/
def onstopHandler (mt : String) (closeFails : Bool) (s : AppState) : AppState :=
  let s1 := { s with tick := false,
                     previewURL := some ⟨s.chunks.flatten, blobType mt⟩,
                     isRecording := false }
  (cleanupStreams closeFails s1).1

/-- Whether the Download control is rendered: the preview block shows
the `<video>` and the Download button exactly when `previewURL` is
non-empty. -/
def downloadEnabled (s : AppState) : Bool :=
  s.previewURL.isSome

/-! ## Download action (`handleDownload`) and its filename -/

/-- The fields of a JS `Date` that `toISOString` prints (UTC). -/
structure JSDate where
  year : Nat
  month : Nat
  day : Nat
  hour : Nat
  minute : Nat
  second : Nat
  millis : Nat
deriving DecidableEq, Repr

/-- Two decimal digits of `n` (the fixed-width fields of
`toISOString`). -/
def pad2 (n : Nat) : List Char :=
  [Nat.digitChar (n / 10 % 10), Nat.digitChar (n % 10)]

/-- Three decimal digits of `n` (the milliseconds field). -/
def pad3 (n : Nat) : List Char :=
  [Nat.digitChar (n / 100 % 10), Nat.digitChar (n / 10 % 10), Nat.digitChar (n % 10)]

/-- Four decimal digits of `n` (the year field). -/
def pad4 (n : Nat) : List Char :=
  [Nat.digitChar (n / 1000 % 10), Nat.digitChar (n / 100 % 10),
   Nat.digitChar (n / 10 % 10), Nat.digitChar (n % 10)]

/-- The host's `Date.prototype.toISOString`:
`YYYY-MM-DDTHH:MM:SS.sssZ` as a character list. -/
def toISOString (d : JSDate) : List Char :=
  pad4 d.year ++ '-' :: pad2 d.month ++ '-' :: pad2 d.day ++
  'T' :: pad2 d.hour ++ ':' :: pad2 d.minute ++ ':' :: pad2 d.second ++
  '.' :: pad3 d.millis ++ ['Z']

/-- The character substitution of `.replace(/[:.]/g, "-")`. -/
def normChar (c : Char) : Char :=
  if c = ':' ∨ c = '.' then '-' else c

/-- JS `String.prototype.replace` with a string pattern: replace the
first occurrence only (here the pattern is a single character). -/
def replaceFirst (pat repl : Char) : List Char → List Char
  | [] => []
  | c :: cs => if c = pat then repl :: cs else c :: replaceFirst pat repl cs

/-- The timestamp string of `handleDownload`:
`toISOString().replace(/[:.]/g, "-").replace("T", "_").slice(0, 19)`. -/
def downloadTs (d : JSDate) : List Char :=
  (replaceFirst 'T' '_' ((toISOString d).map normChar)).take 19

/-- The spec's download naming convention, written from its words: a
sortable `YYYY-MM-DD_HH-MM-SS` stamp (punctuation normalized to `-`,
truncated to second precision). Used to compare against `downloadTs`. -/
def sortableTs (d : JSDate) : List Char :=
  pad4 d.year ++ '-' :: pad2 d.month ++ '-' :: pad2 d.day ++
  '_' :: pad2 d.hour ++ '-' :: pad2 d.minute ++ '-' :: pad2 d.second

/-- `handleDownload`, invoked when the wall clock reads `now`:
`if (!previewURL || !chunksRef.current?.length) return;` then rebuild
the blob with `pickMimeType() || "video/webm"` and trigger a download
named `recording_${ts}.webm`. Returns the (filename, artifact) pair of
the triggered download, or `none` when the guard returned. -/
def handleDownload (isTypeSupported : String → Bool) (now : JSDate)
    (s : AppState) : Option (String × Artifact) :=
  if s.previewURL.isSome && !(s.chunks.length = 0) then
    some ("recording_" ++ String.mk (downloadTs now) ++ ".webm",
          ⟨s.chunks.flatten, blobType (pickMimeType isTypeSupported)⟩)
  else none

/-! ## Sample states used by witnesses -/

/-- A state in the middle of a recording attempt: recording, some
elapsed time, one buffered chunk, all resource refs held. -/
def midRecordingState : AppState :=
  { isSupported := true, isRecording := true, elapsedMs := 5000,
    previewURL := none, error := "device busy", mediaRecorder := some true,
    chunks := [[1, 2]], displayStream := some [10, 11],
    micStream := some [20], mixedStream := some [10, 30],
    audioCtx := some 7, tick := true, startTime := 1000 }

/-! ## C5: Start while recording is a no-op on state and resources -/

/-- C5: invoking Start while an attempt is already active returns at the
guard, and the recording flag, the elapsed time, the buffered segments,
and every acquired resource reference (display stream, microphone
stream, mixed stream, audio context, encoder, timer) are unchanged by
the call. -/
theorem start_while_recording_noop (s : AppState) (h : s.isRecording = true) :
    (startRecordingStep s).isBlocked = true ∧
    (startRecordingStep s).state.isRecording = s.isRecording ∧
    (startRecordingStep s).state.elapsedMs = s.elapsedMs ∧
    (startRecordingStep s).state.chunks = s.chunks ∧
    (startRecordingStep s).state.displayStream = s.displayStream ∧
    (startRecordingStep s).state.micStream = s.micStream ∧
    (startRecordingStep s).state.mixedStream = s.mixedStream ∧
    (startRecordingStep s).state.audioCtx = s.audioCtx ∧
    (startRecordingStep s).state.mediaRecorder = s.mediaRecorder ∧
    (startRecordingStep s).state.tick = s.tick ∧
    (startRecordingStep s).state.startTime = s.startTime ∧
    (startRecordingStep s).state.previewURL = s.previewURL := by
  simp [startRecordingStep, h, StartOutcome.isBlocked, StartOutcome.state]

/-- Witness for C5 at a concrete mid-recording state. -/
theorem start_while_recording_noop_witness :
    (startRecordingStep midRecordingState).isBlocked = true ∧
    (startRecordingStep midRecordingState).state.elapsedMs =
      midRecordingState.elapsedMs ∧
    (startRecordingStep midRecordingState).state.chunks =
      midRecordingState.chunks :=
  ⟨(start_while_recording_noop midRecordingState rfl).1,
   (start_while_recording_noop midRecordingState rfl).2.2.1,
   (start_while_recording_noop midRecordingState rfl).2.2.2.1⟩

/-! ## C10: even a blocked Start clears the error slot -/

/-- C10: invoking Start while a recording is active, or while the
environment is unsupported, still clears the error message to empty —
`setError("")` runs before the guard returns — and the call is indeed
blocked at the guard. -/
theorem start_blocked_clears_error (s : AppState)
    (h : s.isRecording = true ∨ s.isSupported = false) :
    (startRecordingStep s).state.error = "" ∧
    (startRecordingStep s).isBlocked = true := by
  rcases h with h | h <;>
    simp [startRecordingStep, h, StartOutcome.isBlocked, StartOutcome.state]

/-- Witness for C10: a blocked Start erases the previously displayed
"device busy" message. -/
theorem start_blocked_clears_error_witness :
    (startRecordingStep midRecordingState).state.error = "" ∧
    (startRecordingStep midRecordingState).isBlocked = true :=
  start_blocked_clears_error midRecordingState (Or.inl rfl)

/-! ## C6: exactly the non-empty segments are retained, in order -/

/-- C6: delivering any sequence of `ondataavailable` events appends to
the buffer exactly those emitted segments whose size is greater than
zero, in arrival order; size-zero (and absent) payloads are never
appended. -/
theorem retained_segments_are_nonempty_in_order
    (c : List Blob) (evs : List (Option Blob)) :
    processDataEvents c evs =
      c ++ (evs.filterMap id).filter (fun b => decide (0 < b.length)) := by
  induction evs generalizing c with
  | nil => simp [processDataEvents]
  | cons e rest ih =>
    have hstep : processDataEvents c (e :: rest) =
        processDataEvents (dataAvailable c e) rest := rfl
    rw [hstep, ih]
    cases e with
    | none => simp [dataAvailable]
    | some b =>
      by_cases hb : 0 < b.length
      · simp [dataAvailable, hb]
      · simp [dataAvailable, hb]

/-! ## C7: cleanup is total, clears every ref, and is idempotent -/

/-- C7: cleanup never fails: for every state — including states where
some or all resources were never acquired — and either outcome of the
audio-context close (a close failure is swallowed), cleanup returns
with the display-stream, microphone-stream, mixed-stream and
audio-context refs all null; the result does not depend on the close
outcome; and running cleanup again is a no-op that stops no further
tracks. -/
theorem cleanup_clears_all_refs_and_idempotent (cf cf2 : Bool) (s : AppState) :
    (cleanupStreams cf s).1.displayStream = none ∧
    (cleanupStreams cf s).1.micStream = none ∧
    (cleanupStreams cf s).1.mixedStream = none ∧
    (cleanupStreams cf s).1.audioCtx = none ∧
    cleanupStreams cf s = cleanupStreams cf2 s ∧
    cleanupStreams cf2 (cleanupStreams cf s).1 = ((cleanupStreams cf s).1, []) := by
  cases hac : s.audioCtx <;> cases cf <;> cases cf2 <;>
    simp [cleanupStreams, optTracks, hac]

/-! ## C8: both audio sources connect before the combined stream and
the encoder -/

/-- C8: in the success path of `startRecording`, the system-audio source
and the microphone source are each connected to the mixer destination
(exactly once each) strictly before the combined stream is constructed,
before the encoder is created and before the encoder is started. -/
theorem both_audio_connected_before_encoder :
    startSuccessTrace.indexOf .connectSystemToDest <
      startSuccessTrace.indexOf .buildCombinedStream ∧
    startSuccessTrace.indexOf .connectMicToDest <
      startSuccessTrace.indexOf .buildCombinedStream ∧
    startSuccessTrace.indexOf .buildCombinedStream <
      startSuccessTrace.indexOf .createRecorder ∧
    startSuccessTrace.indexOf .createRecorder <
      startSuccessTrace.indexOf .recorderStart ∧
    startSuccessTrace.count .connectSystemToDest = 1 ∧
    startSuccessTrace.count .connectMicToDest = 1 ∧
    startSuccessTrace.count .buildCombinedStream = 1 := by
  decide

/-! ## C9: first supported format, else unparameterized default -/

/-- C9: `pickMimeType` returns the first entry of the preference-ordered
candidate list that the host reports supported; when the host supports
none of the candidates it returns the empty string, the encoder is then
constructed without a format option, and the artifact content type
defaults to the generic `"video/webm"`. -/
theorem pickMimeType_first_supported (sup : String → Bool) :
    pickMimeType sup =
      (if sup "video/webm;codecs=vp9,opus" then "video/webm;codecs=vp9,opus"
       else if sup "video/webm;codecs=vp8,opus" then "video/webm;codecs=vp8,opus"
       else if sup "video/webm" then "video/webm"
       else "") ∧
    ((∀ c ∈ cand, sup c = false) →
      pickMimeType sup = "" ∧
      recorderOptions (pickMimeType sup) = none ∧
      blobType (pickMimeType sup) = "video/webm") := by
  cases h1 : sup "video/webm;codecs=vp9,opus" <;>
  cases h2 : sup "video/webm;codecs=vp8,opus" <;>
  cases h3 : sup "video/webm" <;>
    simp [pickMimeType, cand, List.find?, h1, h2, h3, recorderOptions, blobType]

/-- Witness for C9 at a host that supports no candidate: the encoder
gets no format option and the artifact type defaults. -/
theorem pickMimeType_first_supported_witness :
    pickMimeType (fun _ => false) = "" ∧
    recorderOptions (pickMimeType (fun _ => false)) = none ∧
    blobType (pickMimeType (fun _ => false)) = "video/webm" :=
  (pickMimeType_first_supported (fun _ => false)).2 (by decide)

/-! ## C1: racing stop triggers, exactly one cleanup and artifact -/

/-- The reachable configurations of the stop machine during an attempt:
still recording (nothing pending, nothing cleaned), stopped with the
`onstop` callback queued, or stopped with the callback delivered
(cleanup and artifact build each done exactly once). -/
def StopInv (s : StopMachine) : Prop :=
  (s.recState = .recording ∧ s.onstopPending = false ∧
     s.cleanupCount = 0 ∧ s.artifactCount = 0) ∨
  (s.recState = .inactive ∧ s.onstopPending = true ∧
     s.cleanupCount = 0 ∧ s.artifactCount = 0) ∨
  (s.recState = .inactive ∧ s.onstopPending = false ∧
     s.cleanupCount = 1 ∧ s.artifactCount = 1)

lemma stopInv_init : StopInv recordingInit := by
  left
  exact ⟨rfl, rfl, rfl, rfl⟩

lemma stopInv_step (s : StopMachine) (e : StopEvent) (h : StopInv s) :
    StopInv (stepStop s e) := by
  rcases h with ⟨h1, h2, h3, h4⟩ | ⟨h1, h2, h3, h4⟩ | ⟨h1, h2, h3, h4⟩ <;>
    cases e <;>
      simp [stepStop, stopRecordingM, deliverOnstopM, StopInv, h1, h2, h3, h4]

lemma runStop_inv (s : StopMachine) (es : List StopEvent) (h : StopInv s) :
    StopInv (runStop s es) := by
  induction es generalizing s with
  | nil => exact h
  | cons e rest ih => exact ih (stepStop s e) (stopInv_step s e h)

lemma stepStop_preserves_inactive (s : StopMachine) (e : StopEvent)
    (h : s.recState = .inactive) : (stepStop s e).recState = .inactive := by
  cases e <;> simp [stepStop, stopRecordingM, deliverOnstopM, h]
  split <;> simp [h]

lemma runStop_preserves_inactive (s : StopMachine) (es : List StopEvent)
    (h : s.recState = .inactive) : (runStop s es).recState = .inactive := by
  induction es generalizing s with
  | nil => exact h
  | cons e rest ih => exact ih (stepStop s e) (stepStop_preserves_inactive s e h)

lemma runStop_trigger_inactive (s : StopMachine) (es : List StopEvent)
    (h : es.any StopEvent.isStopTrigger = true) :
    (runStop s es).recState = .inactive := by
  induction es generalizing s with
  | nil => simp at h
  | cons e rest ih =>
    by_cases he : e.isStopTrigger = true
    · have hstep : (stepStop s e).recState = .inactive := by
        cases e <;> simp [StopEvent.isStopTrigger] at he <;>
          simp [stepStop, stopRecordingM] <;> split <;> simp_all
      exact runStop_preserves_inactive (stepStop s e) rest hstep
    · have hrest : rest.any StopEvent.isStopTrigger = true := by
        simp [List.any_cons, he] at h
        simpa using h
      exact ih (stepStop s e) hrest

/-- C1: from the Recording state, any sequence of events containing at
least one stop trigger — user stop, device-initiated track end, timer
timeout, in any combination and order, interleaved arbitrarily with
deliveries of the encoder's stop callback — ends, once the queued stop
callback has been delivered, with exactly one cleanup execution and
exactly one artifact build. -/
theorem stop_triggers_cleanup_exactly_once (es : List StopEvent)
    (h : es.any StopEvent.isStopTrigger = true) :
    (flushOnstop (runStop recordingInit es)).cleanupCount = 1 ∧
    (flushOnstop (runStop recordingInit es)).artifactCount = 1 := by
  have hinv := runStop_inv recordingInit es stopInv_init
  have hin := runStop_trigger_inactive recordingInit es h
  rcases hinv with ⟨h1, _, _, _⟩ | ⟨_, h2, h3, h4⟩ | ⟨_, h2, h3, h4⟩
  · rw [h1] at hin
    cases hin
  · simp [flushOnstop, deliverOnstopM, h2, h3, h4]
  · simp [flushOnstop, deliverOnstopM, h2, h3, h4]

/-- Witness for C1: all three triggers race (user stop, then the timer
timeout and the device track-end after the callback delivery); cleanup
and the artifact build still happen exactly once. -/
theorem stop_triggers_cleanup_exactly_once_witness :
    (flushOnstop (runStop recordingInit
        [.userStop, .timerTimeout, .deliverOnstop, .trackEnded,
         .deliverOnstop])).cleanupCount = 1 ∧
    (flushOnstop (runStop recordingInit
        [.userStop, .timerTimeout, .deliverOnstop, .trackEnded,
         .deliverOnstop])).artifactCount = 1 :=
  stop_triggers_cleanup_exactly_once
    [.userStop, .timerTimeout, .deliverOnstop, .trackEnded, .deliverOnstop]
    (by decide)

/-! ## C2: the timeout tick stops the attempt once and halts the timer -/

lemma runTimer_succ (origin n : Nat) :
    runTimer origin (n + 1) =
      timerTick (runTimer origin n) (origin + (n + 1) * TICK_MS) := by
  unfold runTimer
  rw [List.range_succ, List.foldl_append]
  rfl

lemma runTimer_lt (origin : Nat) : ∀ n, n < 720 →
    runTimer origin n =
      { startTime := origin, elapsedMs := n * TICK_MS,
        tickActive := true, stopCalls := 0 } := by
  intro n
  induction n with
  | zero => intro _; rfl
  | succ k ih =>
    intro h
    rw [runTimer_succ, ih (by omega)]
    have harith : origin + (k + 1) * TICK_MS - origin = (k + 1) * TICK_MS := by
      omega
    have hlt : ¬ MAX_DURATION_MS ≤ (k + 1) * TICK_MS := by
      unfold MAX_DURATION_MS TICK_MS
      omega
    simp [timerTick, harith, hlt]

lemma runTimer_ge (origin : Nat) : ∀ n, 720 ≤ n →
    runTimer origin n =
      { startTime := origin, elapsedMs := MAX_DURATION_MS,
        tickActive := false, stopCalls := 1 } := by
  intro n
  induction n with
  | zero => intro h; omega
  | succ k ih =>
    intro h
    by_cases hk : 720 ≤ k
    · rw [runTimer_succ, ih hk]
      simp [timerTick]
    · have hk719 : k = 719 := by omega
      subst hk719
      rw [runTimer_succ, runTimer_lt origin 719 (by omega)]
      have harith : origin + 720 * TICK_MS - origin = MAX_DURATION_MS := by
        unfold MAX_DURATION_MS TICK_MS
        omega
      have hge : MAX_DURATION_MS ≤ origin + 720 * TICK_MS - origin := by
        omega
      simp [timerTick, harith, hge]

/-- C2: with ticks every 250 ms, each recomputing the elapsed time as
the tick's wall-clock time minus the recorded origin, the tick at which
elapsed time first reaches the 3-minute maximum (tick 720) invokes stop
exactly once and halts the interval; every earlier tick invokes no stop;
and the elapsed time published at (and after) the stop never exceeds the
maximum duration plus one tick interval. -/
theorem timer_timeout_stops_once (origin n : Nat) (h : 720 ≤ n) :
    (runTimer origin n).stopCalls = 1 ∧
    (runTimer origin n).tickActive = false ∧
    (runTimer origin n).elapsedMs = MAX_DURATION_MS ∧
    (runTimer origin n).elapsedMs ≤ MAX_DURATION_MS + TICK_MS ∧
    (∀ m, m < 720 →
      (runTimer origin m).stopCalls = 0 ∧
      (runTimer origin m).elapsedMs = origin + m * TICK_MS - origin) := by
  rw [runTimer_ge origin n h]
  refine ⟨rfl, rfl, rfl, Nat.le_add_right _ _, ?_⟩
  intro m hm
  rw [runTimer_lt origin m hm]
  refine ⟨rfl, ?_⟩
  show m * TICK_MS = origin + m * TICK_MS - origin
  unfold TICK_MS
  omega

/-- Witness for C2 at origin 0 after exactly 720 ticks. -/
theorem timer_timeout_stops_once_witness :
    (runTimer 0 720).stopCalls = 1 ∧
    (runTimer 0 720).tickActive = false ∧
    (runTimer 0 720).elapsedMs = MAX_DURATION_MS :=
  ⟨(timer_timeout_stops_once 0 720 (by decide)).1,
   (timer_timeout_stops_once 0 720 (by decide)).2.1,
   (timer_timeout_stops_once 0 720 (by decide)).2.2.1⟩

/-! ## C3: empty-segment attempts (corrected) -/

/-- Counterexample to C3 as stated: an attempt that reaches Recording
and stops with zero retained segments. The `onstop` handler still
builds the (zero-byte) artifact, still publishes a preview handle, and
the Download control — rendered whenever the preview URL is non-empty —
is enabled. -/
theorem empty_segments_still_build_artifact_cex :
    (onstopHandler "video/webm"  false
        { isSupported := true, isRecording := true, elapsedMs := 1000,
          previewURL := none, error := "", mediaRecorder := some false,
          chunks := [], displayStream := some [10], micStream := some [20],
          mixedStream := some [10, 30], audioCtx := some 7, tick := true,
          startTime := 0 }).previewURL = some ⟨[], "video/webm"⟩ ∧
    downloadEnabled (onstopHandler "video/webm" false
        { isSupported := true, isRecording := true, elapsedMs := 1000,
          previewURL := none, error := "", mediaRecorder := some false,
          chunks := [], displayStream := some [10], micStream := some [20],
          mixedStream := some [10, 30], audioCtx := some 7, tick := true,
          startTime := 0 }) = true := by
  decide

/-- C3 (amended): when an attempt ends with zero retained segments, the
zero-byte artifact is still built, the preview handle is still produced
and the Download control is enabled; only the download action itself
refuses to run — `handleDownload` returns without triggering a download
when the segment list is empty. -/
theorem empty_segments_download_refused (mt : String) (cf : Bool)
    (sup : String → Bool) (now : JSDate) (s : AppState)
    (h : s.chunks = []) :
    (onstopHandler mt cf s).previewURL = some ⟨[], blobType mt⟩ ∧
    downloadEnabled (onstopHandler mt cf s) = true ∧
    handleDownload sup now (onstopHandler mt cf s) = none := by
  cases hac : s.audioCtx <;> cases cf <;>
    simp [onstopHandler, cleanupStreams, handleDownload, downloadEnabled,
          h, hac]

/-- Witness for C3 (amended) at a concrete zero-segment attempt. -/
theorem empty_segments_download_refused_witness :
    (onstopHandler "video/webm" true
        { isSupported := true, isRecording := true, elapsedMs := 500,
          previewURL := none, error := "", mediaRecorder := some false,
          chunks := [], displayStream := some [1], micStream := none,
          mixedStream := none, audioCtx := some 3, tick := true,
          startTime := 0 }).previewURL = some ⟨[], blobType "video/webm"⟩ ∧
    downloadEnabled (onstopHandler "video/webm" true
        { isSupported := true, isRecording := true, elapsedMs := 500,
          previewURL := none, error := "", mediaRecorder := some false,
          chunks := [], displayStream := some [1], micStream := none,
          mixedStream := none, audioCtx := some 3, tick := true,
          startTime := 0 }) = true ∧
    handleDownload (fun _ => true) ⟨2025, 3, 4, 5, 6, 7, 8⟩
      (onstopHandler "video/webm" true
        { isSupported := true, isRecording := true, elapsedMs := 500,
          previewURL := none, error := "", mediaRecorder := some false,
          chunks := [], displayStream := some [1], micStream := none,
          mixedStream := none, audioCtx := some 3, tick := true,
          startTime := 0 }) = none :=
  empty_segments_download_refused "video/webm" true (fun _ => true)
    ⟨2025, 3, 4, 5, 6, 7, 8⟩ _ rfl

/-! ## C4: the download filename (corrected) -/

lemma digitChar_not_special (n : Nat) :
    Nat.digitChar n ≠ ':' ∧ Nat.digitChar n ≠ '.' ∧ Nat.digitChar n ≠ 'T' := by
  by_cases h : n < 16
  · interval_cases n <;> exact ⟨by decide, by decide, by decide⟩
  · have hstar : Nat.digitChar n = '*' := by
      unfold Nat.digitChar
      rw [if_neg (by omega : ¬ n = 0), if_neg (by omega : ¬ n = 1),
          if_neg (by omega : ¬ n = 2), if_neg (by omega : ¬ n = 3),
          if_neg (by omega : ¬ n = 4), if_neg (by omega : ¬ n = 5),
          if_neg (by omega : ¬ n = 6), if_neg (by omega : ¬ n = 7),
          if_neg (by omega : ¬ n = 8), if_neg (by omega : ¬ n = 9),
          if_neg (by omega : ¬ n = 0xa), if_neg (by omega : ¬ n = 0xb),
          if_neg (by omega : ¬ n = 0xc), if_neg (by omega : ¬ n = 0xd),
          if_neg (by omega : ¬ n = 0xe), if_neg (by omega : ¬ n = 0xf)]
    rw [hstar]
    exact ⟨by decide, by decide, by decide⟩

@[simp] lemma normChar_digitChar (n : Nat) :
    normChar (Nat.digitChar n) = Nat.digitChar n := by
  have h := digitChar_not_special n
  simp [normChar, h.1, h.2.1]

@[simp] lemma digitChar_ne_T (n : Nat) : ¬ Nat.digitChar n = 'T' :=
  (digitChar_not_special n).2.2

@[simp] lemma T_ne_digitChar (n : Nat) : ¬ 'T' = Nat.digitChar n :=
  fun h => (digitChar_not_special n).2.2 h.symm

@[simp] lemma normChar_colon : normChar ':' = '-' := by decide

@[simp] lemma normChar_dot : normChar '.' = '-' := by decide

@[simp] lemma normChar_dash : normChar '-' = '-' := by decide

@[simp] lemma normChar_T : normChar 'T' = 'T' := by decide

@[simp] lemma normChar_Z : normChar 'Z' = 'Z' := by decide

lemma replaceFirst_not_mem (pat repl : Char) (l1 l2 : List Char)
    (h : pat ∉ l1) :
    replaceFirst pat repl (l1 ++ l2) = l1 ++ replaceFirst pat repl l2 := by
  induction l1 with
  | nil => rfl
  | cons c cs ih =>
    have hc : ¬ c = pat := fun hcp => h (by simp [hcp])
    have hcs : pat ∉ cs := fun hmem => h (by simp [hmem])
    simp [replaceFirst, hc, ih hcs]

lemma replaceFirst_head (pat repl : Char) (l : List Char) :
    replaceFirst pat repl (pat :: l) = repl :: l := by
  simp [replaceFirst]

/-- The normalized ISO string splits as the sortable date-time part,
followed by the dash that was the millisecond dot, the millisecond
digits and the trailing Z. -/
lemma normalized_iso_split (d : JSDate) :
    replaceFirst 'T' '_' ((toISOString d).map normChar) =
      sortableTs d ++ '-' :: pad3 d.millis ++ ['Z'] := by
  have hmem : 'T' ∉
      pad4 d.year ++ '-' :: pad2 d.month ++ '-' :: pad2 d.day ++ ([] : List Char) := by
    simp [pad4, pad2]
  have hsplit : (toISOString d).map normChar =
      (pad4 d.year ++ '-' :: pad2 d.month ++ '-' :: pad2 d.day ++ ([] : List Char)) ++
        'T' :: (pad2 d.hour ++ '-' :: pad2 d.minute ++ '-' :: pad2 d.second ++
          '-' :: pad3 d.millis ++ ['Z']) := by
    simp [toISOString, pad4, pad2, pad3]
  rw [hsplit, replaceFirst_not_mem _ _ _ _ hmem, replaceFirst_head]
  simp [sortableTs, pad4, pad2]

lemma sortableTs_length (d : JSDate) : (sortableTs d).length = 19 := by
  simp [sortableTs, pad4, pad2]

/-- The timestamp actually embedded in the download filename equals the
spec's sortable `YYYY-MM-DD_HH-MM-SS` form of the same instant: the
punctuation is normalized to `-`, the `T` separator becomes `_`, and
the `slice(0, 19)` truncates away the milliseconds and the zone
letter — second precision. -/
theorem downloadTs_eq_sortableTs (d : JSDate) : downloadTs d = sortableTs d := by
  unfold downloadTs
  rw [normalized_iso_split]
  rw [List.append_assoc]
  exact List.take_left' (sortableTs_length d)

/-- Counterexample to C4 as stated: an attempt whose `onstop` completed
at 2025-01-02T03:04:05 UTC, with the Download button clicked one second
later at 2025-01-02T03:04:06 UTC. `handleDownload` stamps the file with
`new Date()` taken at click time, so the filename carries the
invocation timestamp, not the attempt's completion timestamp. -/
theorem download_name_uses_click_time_cex :
    handleDownload (fun _ => false) ⟨2025, 1, 2, 3, 4, 6, 0⟩
        { isSupported := true, isRecording := false, elapsedMs := 9000,
          previewURL := some ⟨[9, 9, 9], "video/webm"⟩, error := "",
          mediaRecorder := some false, chunks := [[9, 9, 9]],
          displayStream := none, micStream := none, mixedStream := none,
          audioCtx := none, tick := false, startTime := 0 } =
      some ("recording_2025-01-02_03-04-06.webm",
            ⟨[9, 9, 9], "video/webm"⟩) ∧
    "recording_2025-01-02_03-04-06.webm" ≠
      "recording_" ++ String.mk (sortableTs ⟨2025, 1, 2, 3, 4, 5, 0⟩) ++ ".webm" := by
  constructor
  · decide
  · decide

/-- C4 (amended): the download action names the file using the
timestamp at which the download is invoked (not the attempt's
completion timestamp), formatted as the sortable, filesystem-safe,
second-precision `recording_YYYY-MM-DD_HH-MM-SS.webm`; the extension is
the fixed `.webm` container suffix. -/
theorem download_filename_sortable (sup : String → Bool) (now : JSDate)
    (s : AppState) (h1 : s.previewURL.isSome = true)
    (h2 : ¬ s.chunks.length = 0) :
    handleDownload sup now s =
      some ("recording_" ++ String.mk (sortableTs now) ++ ".webm",
            ⟨s.chunks.flatten, blobType (pickMimeType sup)⟩) := by
  simp [handleDownload, h1, h2, downloadTs_eq_sortableTs]

/-- Witness for C4 (amended): downloading at 2024-12-31T23:59:58.123
UTC names the file `recording_2024-12-31_23-59-58.webm`. -/
theorem download_filename_sortable_witness :
    handleDownload (fun _ => false) ⟨2024, 12, 31, 23, 59, 58, 123⟩
        { isSupported := true, isRecording := false, elapsedMs := 9000,
          previewURL := some ⟨[1], "video/webm"⟩, error := "",
          mediaRecorder := some false, chunks := [[1]],
          displayStream := none, micStream := none, mixedStream := none,
          audioCtx := none, tick := false, startTime := 0 } =
      some ("recording_" ++
              String.mk (sortableTs ⟨2024, 12, 31, 23, 59, 58, 123⟩) ++
              ".webm",
            ⟨[1], blobType (pickMimeType (fun _ => false))⟩) :=
  download_filename_sortable (fun _ => false) ⟨2024, 12, 31, 23, 59, 58, 123⟩
    _ rfl (by decide)

end ScreenRecorder
